import Mathlib

/-!
Shallow embedding of `hummingbot/logger/logger.py`: the structured logging
and notification-escalation subsystem (MQTTHandler, HummingbotLogger with
`notify` / `network` / `is_testing_mode` / `findCaller`).

Python side effects are made explicit: wall-clock reads (`time.time()`)
become a `now : Nat` parameter, `sys.argv` becomes an `argv : List String`
parameter, `os.getenv` results become `Option String` parameters, the live
call stack becomes a `List Frame`, and the calls a method performs on its
sinks and on the host-application singleton are collected into an effects
record returned by the embedded function.
-/

namespace HBLog

/-- Modelled from the spec: the standard INFO severity rank
(`hummingbot/logger/__init__.py` is not part of the shown sources; the spec
describes a registry extending the standard severity set, in which INFO and
WARNING keep their standard ranks 20 and 30). -/
def INFO : Nat := 20

/-- Modelled from the spec: the standard WARNING severity rank (30). -/
def WARNING : Nat := 30

/-- Modelled from the spec: the domain NOTIFY severity rank, positioned
strictly between INFO (20) and WARNING (30). -/
def NOTIFY : Nat := 25

/-- Modelled from the spec: the domain NETWORK severity rank, positioned
at/near WARNING. Its exact value is irrelevant to every theorem below; only
the fact that `network` logs at this constant is used. -/
def NETWORK : Nat := 29

/-- `TESTING_TOOLS = ["nose", "unittest", "pytest"]` (logger.py line 20). -/
def TESTING_TOOLS : List String := ["nose", "unittest", "pytest"]

/-- `is_testing_mode`: `any(tools in arg for tools in TESTING_TOOLS for arg
in sys.argv)` — Python `tools in arg` on strings is substring (infix)
containment. -/
def isTestingMode (argv : List String) : Bool :=
  TESTING_TOOLS.any (fun tools => argv.any (fun arg => decide (tools.data <:+: arg.data)))

/-- The wire message `LogMessage(PubSubMessage)` (logger.py lines 36-42);
the Python `timestamp` is a float of seconds, embedded here as `Nat` since
no arithmetic is ever performed on it. -/
structure LogMessage where
  timestamp : Nat := 0
  msg : String := ""
  level_no : Nat := 0
  level_name : String := ""
  logger_name : String := ""
deriving DecidableEq, Repr

/-- The fields of a standard-library `LogRecord` that `MQTTHandler.emit`
reads (`record.levelno`, `record.levelname`, `record.name`; the record body
itself is consumed only through the handler's formatter). -/
structure PyLogRecord where
  levelno : Nat
  levelname : String
  name : String
deriving DecidableEq, Repr

/-- `MQTTHandler.MQTT_URI = 'hbot/$UID/log'` (logger.py line 46). -/
def MQTT_URI : String := "hbot/$UID/log"

/-- Python `str()` applied to an `os.getenv` result: `str(None)` is the
string `"None"`, `str(s)` is `s` for a string `s`. -/
def pyStr : Option String → String
  | none => "None"
  | some s => s

/-- Python `template.replace('$UID', rep)` specialised to the fixed pattern
`$UID`: leftmost-first, non-overlapping, the replacement text is never
rescanned. -/
def replaceUID (rep : List Char) : List Char → List Char
  | '$' :: 'U' :: 'I' :: 'D' :: rest => rep ++ replaceUID rep rest
  | c :: rest => c :: replaceUID rep rest
  | [] => []

/-- The default topic `MQTT_URI.replace('$UID', str(os.getenv('HBOT_UID')))`
(logger.py line 55). -/
def mqttDefaultTopic (uidEnv : Option String) : String :=
  String.mk (replaceUID (pyStr uidEnv).data MQTT_URI.data)

/-- Topic selection in `MQTTHandler.__init__` (logger.py lines 54-55):
`if mqtt_topic in ('', None): mqtt_topic = MQTT_URI.replace(...)`. The
Python parameter may be a string or `None`, hence `Option String`. -/
def mqttTopic (mqtt_topic : Option String) (uidEnv : Option String) : String :=
  if mqtt_topic = some "" ∨ mqtt_topic = none then mqttDefaultTopic uidEnv
  else mqtt_topic.getD ""

/-- The `LogMessage(...)` construction inside `MQTTHandler.emit`
(logger.py lines 65-73): `msg_str = self.format(record)` then
`LogMessage(timestamp=time.time(), msg=msg_str, level_no=record.levelno,
level_name=record.levelname, logger_name=record.name)`. -/
def buildLogMessage (format : PyLogRecord → String) (now : Nat)
    (record : PyLogRecord) : LogMessage :=
  { timestamp := now
    msg := format record
    level_no := record.levelno
    level_name := record.levelname
    logger_name := record.name }

/-- `MQTTHandler.emit` (logger.py lines 64-74): builds the wire message and
calls `self.mqtt_pub.publish(msg)`. The transport publish is a parameter
that may fail; the method body contains no error handling, so `emit` simply
returns whatever `publish` returns. -/
def emit (publish : LogMessage → Except String Unit)
    (format : PyLogRecord → String) (now : Nat)
    (record : PyLogRecord) : Except String Unit :=
  publish (buildLogMessage format now record)

/-- The truthy allow-list for `HBOT_MQTT_LOGGING` in
`HummingbotLogger.__init__` (logger.py lines 80-81). -/
def MQTT_LOGGING_TOKENS : List String :=
  ["1", "True", "true", "Yes", "Nai", "Si", "Da", "sudo"]

/-- `os.getenv('HBOT_MQTT_LOGGING') in ('1', 'True', 'true', 'Yes', 'Nai',
'Si', 'Da', 'sudo')`; `os.getenv` yields `None` when unset, and `None` is
not equal to any string in the tuple. -/
def mqttLoggingEnabled (env : Option String) : Bool :=
  MQTT_LOGGING_TOKENS.any (fun t => env == some t)

/-- Construction-time state of a `HummingbotLogger` (logger.py lines
78-82): the name passed to the superclass and whether an `MQTTHandler`
was attached. -/
structure LoggerInit where
  name : String
  remoteAttached : Bool
deriving DecidableEq, Repr

/-- `HummingbotLogger.__init__`: attaches an `MQTTHandler` iff the
environment flag's value is in the allow-list. -/
def initLogger (name : String) (env : Option String) : LoggerInit :=
  { name := name, remoteAttached := mqttLoggingEnabled env }

/-- One stack frame as `findCaller` reads it: `f_code.co_filename`,
`f_lineno`, `f_code.co_name`. The chain of `f_back` pointers is embedded as
a list, innermost frame first. -/
structure Frame where
  filename : String
  lineno : Nat
  funcName : String
deriving DecidableEq, Repr

/-- The sentinel `rv = "(unknown file)", 0, "(unknown function)", None`
(logger.py line 136). -/
def sentinelCaller : String × Nat × String × Option String :=
  ("(unknown file)", 0, "(unknown function)", none)

/-- The `while hasattr(f, "f_code")` walk of `findCaller` (logger.py lines
137-153): skip frames whose normcased filename equals `_srcfile`, return
the first other frame's data (with an optional rendered stack snapshot),
sentinel if the chain runs out. `normcase` embeds `os.path.normcase` and
`render` embeds the `traceback.print_stack` text. -/
def walkCaller (normcase : String → String) (srcfile : String)
    (render : List Frame → String) (stack_info : Bool) :
    List Frame → String × Nat × String × Option String
  | [] => sentinelCaller
  | f :: rest =>
    if normcase f.filename = srcfile then
      walkCaller normcase srcfile render stack_info rest
    else
      (f.filename, f.lineno, f.funcName,
        if stack_info then some (render (f :: rest)) else none)

/-- `HummingbotLogger.findCaller` (logger.py lines 120-154). `stack` is the
frame chain starting at `currentframe()`; `f = f.f_back` is `drop 1`, the
`while f and stacklevel > 1` loop is `drop (stacklevel - 1)`, and
`if not f: f = orig_f` restores the pre-loop chain when the loop ran off
the end. -/
def findCaller (normcase : String → String) (srcfile : String)
    (render : List Frame → String) (stack : List Frame)
    (stack_info : Bool) (stacklevel : Nat) :
    String × Nat × String × Option String :=
  let f0 := stack.drop 1
  let f1 := f0.drop (stacklevel - 1)
  let f2 := if f1.isEmpty then f0 else f1
  walkCaller normcase srcfile render stack_info f2

/-- Effects of `HummingbotLogger.notify` (logger.py lines 94-100):
the `self.log(level, msg)` call it makes and the string (if any) passed to
`HummingbotApplication.main_application().notify(...)`. -/
structure NotifyEffects where
  logged : Nat × String
  appNotify : Option String
deriving DecidableEq, Repr

/-- `HummingbotLogger.notify`: `from . import INFO; self.log(INFO, msg)`;
then, unless `is_testing_mode()`, the host application's `notify` receives
`f"({pd.Timestamp.fromtimestamp(int(time.time()))}) {msg}"`.
`fmtTimestamp` embeds the `pd.Timestamp.fromtimestamp` rendering of the
truncated wall-clock second count. -/
def notify (argv : List String) (now : Nat) (fmtTimestamp : Nat → String)
    (msg : String) : NotifyEffects :=
  { logged := (INFO, msg)
    appNotify :=
      if isTestingMode argv then none
      else some ("(" ++ fmtTimestamp now ++ ") " ++ msg) }

/-- Modelled from the spec: `ApplicationWarning` (imported from
`.application_warning`, not part of the shown sources) — the record
`{timestamp, logger_name, caller_location, message}` built by `network`;
the message field is named `warning_msg` as read back on logger.py
line 115. -/
structure ApplicationWarning where
  timestamp : Nat
  logger_name : String
  caller_info : String × Nat × String × Option String
  warning_msg : String
deriving DecidableEq, Repr

/-- Effects of `HummingbotLogger.network` (logger.py lines 102-117): the
NETWORK-level `self.log` call, the optional `self.warning` call (level and
message), and the record (if any) passed to
`HummingbotApplication.main_application().add_application_warning(...)`. -/
structure NetworkEffects where
  logged : Nat × String
  warningLogged : Option (Nat × String)
  appWarning : Option ApplicationWarning
deriving DecidableEq, Repr

/-- `HummingbotLogger.network`: always `self.log(NETWORK, log_msg)`; when
`app_warning_msg is not None and not is_testing_mode()`, builds
`ApplicationWarning(time.time(), self.name, self.findCaller(),
app_warning_msg)`, logs `app_warning.warning_msg` at WARNING, and hands the
record to the host application. -/
def network (argv : List String) (now : Nat) (name : String)
    (normcase : String → String) (srcfile : String)
    (render : List Frame → String) (stack : List Frame)
    (log_msg : String) (app_warning_msg : Option String) : NetworkEffects :=
  match app_warning_msg with
  | some w =>
    if isTestingMode argv then
      { logged := (NETWORK, log_msg), warningLogged := none, appWarning := none }
    else
      let app_warning : ApplicationWarning :=
        { timestamp := now
          logger_name := name
          caller_info := findCaller normcase srcfile render stack false 1
          warning_msg := w }
      { logged := (NETWORK, log_msg)
        warningLogged := some (WARNING, app_warning.warning_msg)
        appWarning := some app_warning }
  | none =>
    { logged := (NETWORK, log_msg), warningLogged := none, appWarning := none }

/-! ## Helper lemmas -/

/-- `is_testing_mode` is true exactly when some invocation argument has one
of the test-runner markers as a substring. -/
theorem isTestingMode_iff (argv : List String) :
    isTestingMode argv = true ↔
      ∃ arg ∈ argv, ∃ tool ∈ TESTING_TOOLS, tool.data <:+: arg.data := by
  simp [isTestingMode, List.any_eq_true]
  tauto

/-- With the default `stacklevel = 1`, `findCaller` walks exactly the chain
one `f_back` above `currentframe()`. -/
theorem findCaller_one (normcase : String → String) (srcfile : String)
    (render : List Frame → String) (stack : List Frame) (si : Bool) :
    findCaller normcase srcfile render stack si 1 =
      walkCaller normcase srcfile render si (stack.drop 1) := by
  simp [findCaller]

/-- The frame walk is characterised by `List.find?` on the predicate "not an
internal frame": sentinel when no external frame exists, otherwise the data
of the first external frame. -/
theorem walkCaller_find (normcase : String → String) (srcfile : String)
    (render : List Frame → String) (si : Bool) (l : List Frame) :
    (l.find? (fun g => !(normcase g.filename == srcfile)) = none →
      walkCaller normcase srcfile render si l = sentinelCaller) ∧
    (∀ fr, l.find? (fun g => !(normcase g.filename == srcfile)) = some fr →
      (walkCaller normcase srcfile render si l).1 = fr.filename ∧
      (walkCaller normcase srcfile render si l).2.1 = fr.lineno ∧
      (walkCaller normcase srcfile render si l).2.2.1 = fr.funcName) := by
  induction l with
  | nil => exact ⟨fun _ => rfl, fun fr h => by simp [List.find?] at h⟩
  | cons f rest ih =>
    by_cases hf : normcase f.filename = srcfile
    · constructor
      · intro h
        rw [List.find?_cons_of_neg] at h
        · simp [walkCaller, hf]
          exact ih.1 h
        · simp [hf]
      · intro fr h
        rw [List.find?_cons_of_neg] at h
        · simpa [walkCaller, hf] using ih.2 fr h
        · simp [hf]
    · constructor
      · intro h
        rw [List.find?_cons_of_pos] at h
        · exact absurd h (by simp)
        · simp [hf]
      · intro fr h
        rw [List.find?_cons_of_pos] at h
        · cases h
          simp [walkCaller, hf]
        · simp [hf]

/-- A walk over frames that all belong to the logging core ends in the
sentinel. -/
theorem walkCaller_all_internal (normcase : String → String) (srcfile : String)
    (render : List Frame → String) (si : Bool) (l : List Frame)
    (h : ∀ fr ∈ l, normcase fr.filename = srcfile) :
    walkCaller normcase srcfile render si l = sentinelCaller := by
  induction l with
  | nil => rfl
  | cons f rest ih =>
    have hf := h f (List.mem_cons_self f rest)
    simp only [walkCaller, hf, if_pos]
    exact ih (fun fr hfr => h fr (List.mem_cons_of_mem f hfr))

/-- The default topic substitutes the UID into `hbot/$UID/log`. -/
theorem mqttDefaultTopic_some (uid : String) :
    mqttDefaultTopic (some uid) = "hbot/" ++ uid ++ "/log" := by
  have h : replaceUID uid.data MQTT_URI.data =
      "hbot/".data ++ uid.data ++ "/log".data := by
    simp [replaceUID, MQTT_URI]
  show String.mk (replaceUID uid.data MQTT_URI.data) = _
  rw [h]
  apply String.ext
  simp [String.data_append]

/-! ## Claim theorems -/

/-- Claim C1, counterexample: with a transport whose publish raises, the
error comes straight back out of `emit` — it is not swallowed, refuting
"a publish failure does not propagate to the caller of emit". -/
theorem emit_swallows_failure_cex :
    emit (fun _ => Except.error "transport failure") (fun r => r.name) 7
      { levelno := 20, levelname := "INFO", name := "x.y" } =
      Except.error "transport failure" ∧
    ¬ emit (fun _ => Except.error "transport failure") (fun r => r.name) 7
      { levelno := 20, levelname := "INFO", name := "x.y" } = Except.ok () :=
  ⟨rfl, fun hco => Except.noConfusion hco⟩

/-- Claim C1 (amended): `MQTTHandler.emit` contains no error handling, so a
failure of the transport publish propagates unchanged to the caller of
`emit` (and hence to the logging call that triggered the emission). -/
theorem emit_propagates_publish_failure
    (publish : LogMessage → Except String Unit)
    (format : PyLogRecord → String) (now : Nat) (record : PyLogRecord)
    (e : String)
    (h : publish (buildLogMessage format now record) = Except.error e) :
    emit publish format now record = Except.error e := h

/-- Claim C1 witness: a concrete failing publish propagated by `emit`. -/
theorem emit_propagates_publish_failure_witness :
    emit (fun _ => Except.error "boom") (fun _ => "m") 0
      { levelno := 20, levelname := "INFO", name := "x" } =
      Except.error "boom" :=
  emit_propagates_publish_failure (fun _ => Except.error "boom")
    (fun _ => "m") 0 { levelno := 20, levelname := "INFO", name := "x" }
    "boom" rfl

/-- Claim C2, counterexample: `notify` calls `self.log(INFO, msg)`, so the
severity of the log call is the standard INFO rank, not the NOTIFY rank
(which lies strictly between INFO and WARNING). -/
theorem notify_level_cex :
    (notify ["bin/hummingbot"] 0 (fun _ => "ts") "hello").logged.1 = INFO ∧
    ¬ (notify ["bin/hummingbot"] 0 (fun _ => "ts") "hello").logged.1 = NOTIFY := by
  decide

/-- Claim C2 (amended): `notify(message)` logs the message at the standard
INFO severity level (not the NOTIFY level), and outside test mode
additionally forwards the timestamp-prefixed rendering
`"(" ++ ts ++ ") " ++ message` to the host application's notification
surface. -/
theorem notify_logs_info_and_forwards (argv : List String) (now : Nat)
    (fmtTimestamp : Nat → String) (msg : String) :
    (notify argv now fmtTimestamp msg).logged = (INFO, msg) ∧
    (isTestingMode argv = false →
      (notify argv now fmtTimestamp msg).appNotify =
        some ("(" ++ fmtTimestamp now ++ ") " ++ msg)) := by
  refine ⟨rfl, fun h => ?_⟩
  simp [notify, h]

/-- Claim C2 witness: outside test mode the message is logged at INFO and
the prefixed rendering reaches the host notification surface. -/
theorem notify_logs_info_and_forwards_witness :
    (notify ["bin/hummingbot"] 7 (fun _ => "2024-01-01") "hello").logged =
      (INFO, "hello") ∧
    (notify ["bin/hummingbot"] 7 (fun _ => "2024-01-01") "hello").appNotify =
      some "(2024-01-01) hello" := by
  have h := notify_logs_info_and_forwards ["bin/hummingbot"] 7
    (fun _ => "2024-01-01") "hello"
  exact ⟨h.1, (h.2 (by decide)).trans (by decide)⟩

/-- Claim C3: `network(log_msg, app_warning_msg)` always logs `log_msg` at
the NETWORK level; exactly when `app_warning_msg` is non-null and test mode
is off, it resolves the caller location, builds the ApplicationWarning
record `{timestamp, logger name, caller location, message}`, also logs the
warning message at WARNING, and hands the record to the host application's
warning surface. -/
theorem network_logs_and_escalates (argv : List String) (now : Nat)
    (name : String) (normcase : String → String) (srcfile : String)
    (render : List Frame → String) (stack : List Frame)
    (log_msg : String) (app_warning_msg : Option String) :
    (network argv now name normcase srcfile render stack log_msg
        app_warning_msg).logged = (NETWORK, log_msg) ∧
    ((network argv now name normcase srcfile render stack log_msg
        app_warning_msg).appWarning.isSome = true ↔
      app_warning_msg ≠ none ∧ isTestingMode argv = false) ∧
    (∀ w, app_warning_msg = some w → isTestingMode argv = false →
      (network argv now name normcase srcfile render stack log_msg
          app_warning_msg).appWarning =
        some { timestamp := now
               logger_name := name
               caller_info := findCaller normcase srcfile render stack false 1
               warning_msg := w } ∧
      (network argv now name normcase srcfile render stack log_msg
          app_warning_msg).warningLogged = some (WARNING, w)) := by
  cases app_warning_msg with
  | none => simp [network]
  | some w =>
    cases htm : isTestingMode argv with
    | false => simp [network, htm]
    | true => simp [network, htm]

/-- Claim C3 witness: a concrete non-test escalation building and handing
off the ApplicationWarning record. -/
theorem network_logs_and_escalates_witness :
    (network ["run"] 3 "net.logger" (fun s => s) "src" (fun _ => "") []
        "conn down" (some "warn")).appWarning =
      some { timestamp := 3
             logger_name := "net.logger"
             caller_info := sentinelCaller
             warning_msg := "warn" } ∧
    (network ["run"] 3 "net.logger" (fun s => s) "src" (fun _ => "") []
        "conn down" (some "warn")).warningLogged = some (WARNING, "warn") ∧
    (network ["run"] 3 "net.logger" (fun s => s) "src" (fun _ => "") []
        "conn down" (some "warn")).logged = (NETWORK, "conn down") := by
  have h := network_logs_and_escalates ["run"] 3 "net.logger" (fun s => s)
    "src" (fun _ => "") [] "conn down" (some "warn")
  have h3 := h.2.2 "warn" rfl (by decide)
  exact ⟨h3.1, h3.2, h.1⟩

/-- Claim C4: whenever a test-runner marker appears (as a substring) in
some process invocation argument, neither `notify` nor `network` invokes
the host-application singleton: no `notify` call and no
`add_application_warning` call reaches it. -/
theorem testing_marker_blocks_host_app (argv : List String) (now : Nat)
    (fmtTimestamp : Nat → String) (msg name : String)
    (normcase : String → String) (srcfile : String)
    (render : List Frame → String) (stack : List Frame)
    (log_msg : String) (app_warning_msg : Option String)
    (h : ∃ arg ∈ argv, ∃ tool ∈ TESTING_TOOLS, tool.data <:+: arg.data) :
    (notify argv now fmtTimestamp msg).appNotify = none ∧
    (network argv now name normcase srcfile render stack log_msg
        app_warning_msg).appWarning = none := by
  have htm : isTestingMode argv = true := (isTestingMode_iff argv).2 h
  constructor
  · simp [notify, htm]
  · cases app_warning_msg <;> simp [network, htm]

/-- Claim C4 witness: with `pytest` appearing in an invocation argument,
both operations leave the host application untouched. -/
theorem testing_marker_blocks_host_app_witness :
    (notify ["/usr/bin/pytest"] 1 (fun _ => "t") "x").appNotify = none ∧
    (network ["/usr/bin/pytest"] 1 "n" (fun s => s) "f" (fun _ => "") []
        "x" (some "y")).appWarning = none :=
  testing_marker_blocks_host_app ["/usr/bin/pytest"] 1 (fun _ => "t") "x"
    "n" (fun s => s) "f" (fun _ => "") [] "x" (some "y") (by decide)

/-- Claim C5: `findCaller` never returns a location whose (normcased)
source path is the logging core's own file `_srcfile`: internal frames are
skipped, and whenever an external frame exists the first one's
(file, line, function) is returned. -/
theorem findCaller_skips_logging_core (normcase : String → String)
    (srcfile : String) (render : List Frame → String) (stack : List Frame)
    (si : Bool)
    (hsrc : ¬ normcase "(unknown file)" = srcfile) :
    ¬ normcase (findCaller normcase srcfile render stack si 1).1 = srcfile ∧
    (∀ fr, (stack.drop 1).find?
        (fun g => !(normcase g.filename == srcfile)) = some fr →
      (findCaller normcase srcfile render stack si 1).1 = fr.filename ∧
      (findCaller normcase srcfile render stack si 1).2.1 = fr.lineno ∧
      (findCaller normcase srcfile render stack si 1).2.2.1 = fr.funcName) := by
  rw [findCaller_one]
  refine ⟨?_, (walkCaller_find normcase srcfile render si (stack.drop 1)).2⟩
  cases hfind : (stack.drop 1).find?
      (fun g => !(normcase g.filename == srcfile)) with
  | none =>
    rw [(walkCaller_find normcase srcfile render si (stack.drop 1)).1 hfind]
    simpa [sentinelCaller] using hsrc
  | some fr =>
    have h2 := (walkCaller_find normcase srcfile render si (stack.drop 1)).2
      fr hfind
    rw [h2.1]
    have hp := List.find?_some hfind
    simpa using hp

/-- Claim C5 witness: two internal frames are skipped and the first
external frame is attributed. -/
theorem findCaller_skips_logging_core_witness :
    ¬ (fun s : String => s)
        (findCaller (fun s => s) "/hb/logger/logger.py" (fun _ => "")
          [{ filename := "/hb/logger/logger.py", lineno := 112,
             funcName := "network" },
           { filename := "/hb/logger/logger.py", lineno := 140,
             funcName := "caller" },
           { filename := "/app/strategy.py", lineno := 33,
             funcName := "tick" }] false 1).1 = "/hb/logger/logger.py" ∧
    (findCaller (fun s => s) "/hb/logger/logger.py" (fun _ => "")
      [{ filename := "/hb/logger/logger.py", lineno := 112,
         funcName := "network" },
       { filename := "/hb/logger/logger.py", lineno := 140,
         funcName := "caller" },
       { filename := "/app/strategy.py", lineno := 33,
         funcName := "tick" }] false 1).1 = "/app/strategy.py" := by
  have h := findCaller_skips_logging_core (fun s => s) "/hb/logger/logger.py"
    (fun _ => "")
    [{ filename := "/hb/logger/logger.py", lineno := 112,
       funcName := "network" },
     { filename := "/hb/logger/logger.py", lineno := 140,
       funcName := "caller" },
     { filename := "/app/strategy.py", lineno := 33,
       funcName := "tick" }] false (by decide)
  exact ⟨h.1, (h.2 ⟨"/app/strategy.py", 33, "tick"⟩ (by decide)).1⟩

/-- Claim C6: `findCaller` is total, and when the walk exhausts the stack
without finding an external frame it returns the sentinel
`("(unknown file)", 0, "(unknown function)", none)`. -/
theorem findCaller_total_sentinel (normcase : String → String)
    (srcfile : String) (render : List Frame → String) (stack : List Frame)
    (si : Bool) (sl : Nat)
    (h : ∀ fr ∈ stack, normcase fr.filename = srcfile) :
    findCaller normcase srcfile render stack si sl = sentinelCaller := by
  unfold findCaller
  apply walkCaller_all_internal
  intro fr hfr
  apply h
  split at hfr
  · exact List.drop_subset 1 stack hfr
  · exact List.drop_subset 1 stack (List.drop_subset _ _ hfr)

/-- Claim C6 witness: a stack consisting only of logging-core frames
degrades to the sentinel. -/
theorem findCaller_total_sentinel_witness :
    findCaller (fun s => s) "/hb/logger/logger.py" (fun _ => "")
      [{ filename := "/hb/logger/logger.py", lineno := 5,
         funcName := "emit" },
       { filename := "/hb/logger/logger.py", lineno := 9,
         funcName := "network" }] true 3 = sentinelCaller :=
  findCaller_total_sentinel (fun s => s) "/hb/logger/logger.py" (fun _ => "")
    [{ filename := "/hb/logger/logger.py", lineno := 5, funcName := "emit" },
     { filename := "/hb/logger/logger.py", lineno := 9,
       funcName := "network" }] true 3 (by decide)

/-- Claim C7: the remote sink is attached at logger construction iff the
environment flag's value is in the fixed allow-list
`('1','True','true','Yes','Nai','Si','Da','sudo')`; in particular "TRUE",
"yes" and an unset variable leave remote shipping disabled. -/
theorem remote_sink_allowlist (name : String) (env : Option String) :
    ((initLogger name env).remoteAttached = true ↔
      ∃ v, env = some v ∧ v ∈ MQTT_LOGGING_TOKENS) ∧
    (initLogger name (some "TRUE")).remoteAttached = false ∧
    (initLogger name (some "yes")).remoteAttached = false ∧
    (initLogger name none).remoteAttached = false := by
  refine ⟨?_, rfl, rfl, rfl⟩
  simp [initLogger, mqttLoggingEnabled, List.any_eq_true, beq_iff_eq]
  tauto

/-- Claim C8: the wire message built by `emit` preserves exactly the
record's formatted message, numeric level, level name and logger name in
`msg`, `level_no`, `level_name`, `logger_name`, and carries the wall-clock
timestamp of the emission; instantiated at the spec's example record. -/
theorem emit_message_preserves_fields (format : PyLogRecord → String)
    (now : Nat) (record : PyLogRecord) :
    (buildLogMessage format now record).msg = format record ∧
    (buildLogMessage format now record).level_no = record.levelno ∧
    (buildLogMessage format now record).level_name = record.levelname ∧
    (buildLogMessage format now record).logger_name = record.name ∧
    (buildLogMessage format now record).timestamp = now ∧
    buildLogMessage (fun _ => "hello") now
        { levelno := 20, levelname := "INFO", name := "x.y" } =
      { timestamp := now, msg := "hello", level_no := 20,
        level_name := "INFO", logger_name := "x.y" } :=
  ⟨rfl, rfl, rfl, rfl, rfl, rfl⟩

/-- Claim C9: with no explicit topic override (empty or null), the publish
topic is the fixed template `hbot/$UID/log` with `$UID` replaced by the
installation-identifier environment variable's value. -/
theorem default_topic_substitutes_uid (uid : String) (override : Option String)
    (h : override = none ∨ override = some "") :
    mqttTopic override (some uid) = "hbot/" ++ uid ++ "/log" := by
  rcases h with h | h <;> subst h <;> simp [mqttTopic, mqttDefaultTopic_some]

/-- Claim C9 witness: a concrete installation identifier substituted into
the template. -/
theorem default_topic_substitutes_uid_witness :
    mqttTopic none (some "a1b2c3") = "hbot/a1b2c3/log" :=
  (default_topic_substitutes_uid "a1b2c3" none (Or.inl rfl)).trans (by decide)

/-- Claim C10: test-mode detection returns true iff some invocation
argument contains one of "nose"/"unittest"/"pytest" as a substring; in
particular a file path merely containing "pytest" triggers it. -/
theorem is_testing_mode_substring_iff (argv : List String) :
    (isTestingMode argv = true ↔
      ∃ arg ∈ argv, ∃ tool ∈ TESTING_TOOLS, tool.data <:+: arg.data) ∧
    isTestingMode ["/home/user/pytest-runs/conf.py"] = true :=
  ⟨isTestingMode_iff argv, by decide⟩

end HBLog
